import Mathlib

/-!
Shallow embedding of the fin-basware-int mail-dispatch pipeline
(`src/functions/ews-mail-export/mail.py`, the complete variant that the
spec's design notes declare canonical).

Python strings are modelled as `List Char` so that every string
operation the code uses (`endswith`, `startswith`, `lower`, slicing,
formatting) reduces inside the kernel.  External collaborators (object
store, PDF merging library, template renderer, mail transport) are
modelled as function parameters, mirroring the spec's abstract
`BlobStore` / `PdfMerger` / `TemplateRenderer` / `MailTransport`
interfaces; fallible collaborators return `Except`.  The pipeline
itself is translated statement by statement from `MailProcessor`.
-/

namespace FinBasware

/-- A Python `str`, as a list of characters. -/
abbrev Str := List Char

/-- Raw attachment bytes, as delivered by the object store. -/
abbrev Bytes := List Nat

/-- Python `s.endswith(suffix)`. -/
def pyEndsWith (s suffix : Str) : Bool :=
  suffix.isSuffixOf s

/-- Python `s.startswith(prefix)` (the argument is the leading piece). -/
def pyStartsWith (s lead : Str) : Bool :=
  lead.isPrefixOf s

/-- Python `s.lower()` (ASCII case folding suffices for the mailbox
identifiers the code compares). -/
def pyLower (s : Str) : Str :=
  s.map Char.toLower

/-- The `Attachment` dataclass (mail.py lines 22-28).  `bucket` and
`full_path` are `Option` because the synthetic merged attachment sets
them to `None`; `content` starts as `None` and is populated by the
loader. -/
structure Attachment where
  mimetype : Str
  bucket : Option Str
  file_name : Str
  full_path : Option Str
  content : Option Bytes
deriving Repr, DecidableEq

/-- The `Email` dataclass (mail.py lines 31-39).  The event-parsing layer
substitutes empty strings for absent subject/body before the pipeline
runs, so `subject` and `body` are plain strings here. -/
structure Email where
  sent_on : Str
  received_on : Str
  sender : Str
  recipient : Str
  subject : Str
  body : Str
  attachments : List Attachment
deriving Repr, DecidableEq

/-- One value of the `mail_to_mapping` dict: a per-routing-key entry
carrying the outbound address and the reply-identity account (mail.py
lines 89-95 and 130-132 access these keys). -/
structure RouteEntry where
  recipient_email : Str
  sender_account : Str
  sender_account_secret : Str
deriving Repr, DecidableEq

/-- The `EWSConfig` dataclass (mail.py lines 42-57); the mapping is an
association list keyed by routing key. -/
structure EWSConfig where
  email_account : Str
  password : Str
  mail_from : Str
  mail_to_mapping : List (Str × RouteEntry)
  hardcoded_recipients : Bool
  needs_pdfs : Bool
  pdf_only : Bool
  merge_pdfs : Bool
  send_replies : Bool
  reply_to_email : Str
  ignore_reply_subjects : List Str
  ignore_reply_senders : List Str
deriving Repr, DecidableEq

/-- Python `dict.get`: first binding for the key, if any. -/
def mappingGet (m : List (Str × RouteEntry)) (k : Str) : Option RouteEntry :=
  match m.find? (fun p => p.1 == k) with
  | some p => some p.2
  | none => none

/-- The test `a.mimetype.endswith("pdf")` used throughout mail.py. -/
def isPdfMime (a : Attachment) : Bool :=
  pyEndsWith a.mimetype ("pdf".toList)

/-- The download loop of `_load_attachments` (mail.py lines 177-180):
every attachment in the current list gets its `content` set from the
blob store. -/
def downloadAll (readGcs : Option Str → Option Str → Bytes)
    (l : List Attachment) : List Attachment :=
  l.map (fun a => { a with content := some (readGcs a.bucket a.full_path) })

/-- Body of `MailProcessor._merge_pdfs` (mail.py lines 189-236), acting on
`self._email.attachments` (the only field it reads or writes): keep the
non-PDF attachments, feed the `content` of every attachment of the
incoming list (the loop at line 207 iterates over `attachments`, the
full list) to the merging collaborator, and prepend the synthetic
merged attachment. -/
def merge_pdfs (mergeFn : List (Option Bytes) → Bytes)
    (attachments : List Attachment) (attachment_name : Str) : List Attachment :=
  let rest := attachments.filter (fun a => !(isPdfMime a))
  let merged := mergeFn (attachments.map (fun a => a.content))
  let pdf : Attachment :=
    { mimetype := "application/pdf".toList
      bucket := none
      file_name := attachment_name
      full_path := none
      content := some merged }
  pdf :: rest

/-- The successive values of `self._email.attachments` during
`_load_attachments` (mail.py lines 171-185): PDF-only filter, download
loop, then the guarded merge (the `next(iter(...))` first element names
the merged file). -/
def load_attachment_list (readGcs : Option Str → Option Str → Bytes)
    (mergeFn : List (Option Bytes) → Bytes)
    (cfg : EWSConfig) (l : List Attachment) : List Attachment :=
  let pdf_list := l.filter isPdfMime
  let l1 := if cfg.pdf_only then pdf_list else l
  let l2 := downloadAll readGcs l1
  match l2, cfg.merge_pdfs with
  | first_attachment :: _, true => merge_pdfs mergeFn l2 first_attachment.file_name
  | _, _ => l2

/-- Body of `MailProcessor._load_attachments` (mail.py lines 164-187), with the
mutation of `self._email` made explicit: returns the updated email and
the pre-filter PDF count (`pdf_count` is taken before any filtering,
line 171-172). -/
def load_attachments (readGcs : Option Str → Option Str → Bytes)
    (mergeFn : List (Option Bytes) → Bytes)
    (email : Email) (cfg : EWSConfig) : Email × Nat :=
  ({ email with
      attachments := load_attachment_list readGcs mergeFn cfg email.attachments },
   (email.attachments.filter isPdfMime).length)

/-- One call to `_send_email` (mail.py lines 249-297), recorded as the
message handed to the mail transport.  `via_reply_account` is `true`
when the call used `self._reply_email_account` instead of
`self._account`. -/
structure SentMessage where
  subject : Str
  body : Str
  recipients : List Str
  attachments : List Attachment
  reply_to : List Str
  via_reply_account : Bool
deriving Repr, DecidableEq

/-- The recipient resolution of `process` (mail.py lines 119-132):
a per-key entry yields its `recipient_email`; otherwise a `STANDARD`
entry makes the raw routing key itself the destination; otherwise
resolution fails. -/
def resolve_recipient (cfg : EWSConfig) (email : Email) : Option Str :=
  match mappingGet cfg.mail_to_mapping email.recipient with
  | some entry => some entry.recipient_email
  | none =>
    match mappingGet cfg.mail_to_mapping ("STANDARD".toList) with
    | some _ => some email.recipient
    | none => none

/-- The template chosen by the `if pdf_count == 0 / elif == 1 / else`
chain of `process` (mail.py lines 154-159). -/
def reply_template_for (pdf_count : Nat) : Str :=
  if pdf_count == 0 then "templates/error.html".toList
  else if pdf_count == 1 then "templates/success.html".toList
  else "templates/warning.html".toList

/-- Outcome of `_send_reply_email` up to (but excluding) the transport
call: either one of the three suppression gates fired (numbered in
source order: 1 self-reply, 2 ignored sender, 3 ignored subject) or a
reply message was built. -/
inductive ReplyDecision where
  | suppressed (gate : Nat)
  | send (m : SentMessage)
deriving Repr, DecidableEq

/-- Body of `MailProcessor._send_reply_email` (mail.py lines 299-334) before the
final `_send_email` call: render the template (fallible), build the
truncated `"Re: "` subject, then run the three suppression gates in
source order. -/
def build_reply (render : Str → Email → Except Str Str)
    (cfg : EWSConfig) (email : Email) (template : Str) :
    Except Str ReplyDecision :=
  match render template email with
  | Except.error e => Except.error e
  | Except.ok body =>
    let subject := ("Re: ".toList ++ email.subject).take 255
    if pyLower email.sender == pyLower email.recipient then
      Except.ok (ReplyDecision.suppressed 1)
    else if cfg.ignore_reply_senders.contains (pyLower email.sender) then
      Except.ok (ReplyDecision.suppressed 2)
    else if 0 < (cfg.ignore_reply_subjects.filter
        (fun x => pyStartsWith email.subject x)).length then
      Except.ok (ReplyDecision.suppressed 3)
    else
      Except.ok (ReplyDecision.send
        { subject := subject
          body := body
          recipients := [email.sender]
          attachments := []
          reply_to := [cfg.reply_to_email]
          via_reply_account := true })

/-- The whole of `_send_reply_email` including the transport call (mail.py lines
342-349): returns the step's outcome together with the list of messages
actually handed to the reply transport. -/
def reply_step (render : Str → Email → Except Str Str)
    (replyTransport : SentMessage → Except Str Unit)
    (cfg : EWSConfig) (email : Email) (template : Str) :
    Except Str (Option SentMessage) × List SentMessage :=
  match build_reply render cfg email template with
  | Except.error e => (Except.error e, [])
  | Except.ok (ReplyDecision.suppressed _) => (Except.ok none, [])
  | Except.ok (ReplyDecision.send m) =>
    match replyTransport m with
    | Except.error e => (Except.error e, [m])
    | Except.ok _ => (Except.ok (some m), [m])

/-- Observable outcome of one `MailProcessor.process` run: the boolean
return value, the final (mutated) email, the primary message sent via
the main account (if any), which reply template the reply block
selected (if it ran), the reply step's outcome, and the messages handed
to the reply transport. -/
structure ProcessResult where
  ok : Bool
  email : Email
  primary : Option SentMessage
  reply_template : Option Str
  reply : Except Str (Option SentMessage)
  reply_calls : List SentMessage
deriving Repr

/-- Every message the run handed to a mail transport (primary first). -/
def ProcessResult.transport_calls (r : ProcessResult) : List SentMessage :=
  r.primary.toList ++ r.reply_calls

/-- The primary `_send_email` call of `process` (mail.py lines 136-150):
subject, body and current attachment list of the (loaded) email, one
recipient, no reply-to, sent via the main account. -/
def primary_message (email1 : Email) (recipient : Str) : SentMessage :=
  { subject := email1.subject, body := email1.body, recipients := [recipient],
    attachments := email1.attachments, reply_to := [],
    via_reply_account := false }

/-- The primary-send decision of `process` (mail.py lines 134-150):
under `needs_pdfs` the message goes out only for a positive PDF count,
otherwise it always goes out. -/
def primary_send (cfg : EWSConfig) (email1 : Email) (recipient : Str)
    (pdf_count : Nat) : Option SentMessage :=
  if cfg.needs_pdfs then
    if 0 < pdf_count then some (primary_message email1 recipient) else none
  else some (primary_message email1 recipient)

/-- The `try` block of `process` (mail.py lines 152-159): when
`send_replies` is set, run the reply step with the template classified
from `pdf_count`; otherwise do nothing. -/
def reply_run (render : Str → Email → Except Str Str)
    (replyTransport : SentMessage → Except Str Unit)
    (cfg : EWSConfig) (email1 : Email) (pdf_count : Nat) :
    Except Str (Option SentMessage) × List SentMessage :=
  if cfg.send_replies then
    reply_step render replyTransport cfg email1 (reply_template_for pdf_count)
  else (Except.ok none, [])

/-- Body of `MailProcessor.process` (mail.py lines 112-162).  Attachment
loading runs first; a failed recipient resolution returns `false`
before any send; the primary send is gated by `needs_pdfs`/`pdf_count`;
the reply block runs under `send_replies` with any exception caught, so
the return value is `true` in every resolved case. -/
def process (readGcs : Option Str → Option Str → Bytes)
    (mergeFn : List (Option Bytes) → Bytes)
    (render : Str → Email → Except Str Str)
    (replyTransport : SentMessage → Except Str Unit)
    (email : Email) (cfg : EWSConfig) : ProcessResult :=
  match resolve_recipient cfg (load_attachments readGcs mergeFn email cfg).1 with
  | none =>
    { ok := false, email := (load_attachments readGcs mergeFn email cfg).1,
      primary := none, reply_template := none, reply := Except.ok none,
      reply_calls := [] }
  | some recipient =>
    { ok := true
      email := (load_attachments readGcs mergeFn email cfg).1
      primary := primary_send cfg (load_attachments readGcs mergeFn email cfg).1
        recipient (load_attachments readGcs mergeFn email cfg).2
      reply_template :=
        if cfg.send_replies then
          some (reply_template_for (load_attachments readGcs mergeFn email cfg).2)
        else none
      reply := (reply_run render replyTransport cfg
        (load_attachments readGcs mergeFn email cfg).1
        (load_attachments readGcs mergeFn email cfg).2).1
      reply_calls := (reply_run render replyTransport cfg
        (load_attachments readGcs mergeFn email cfg).1
        (load_attachments readGcs mergeFn email cfg).2).2 }

/-! ### Concrete fixtures used by counterexamples and witnesses -/

/-- A PDF attachment as decoded from the event (content not yet loaded). -/
def att_pdf : Attachment :=
  { mimetype := "application/pdf".toList, bucket := some ("bkt".toList),
    file_name := "inv.pdf".toList, full_path := some ("p1".toList),
    content := none }

/-- A non-PDF attachment as decoded from the event. -/
def att_png : Attachment :=
  { mimetype := "image/png".toList, bucket := some ("bkt".toList),
    file_name := "img.png".toList, full_path := some ("p2".toList),
    content := none }

/-- A fixed email carrying one PDF and one PNG attachment. -/
def email0 : Email :=
  { sent_on := "t0".toList, received_on := "t1".toList,
    sender := "from@x.com".toList, recipient := "acct1".toList,
    subject := "Invoice 12".toList, body := "hello".toList,
    attachments := [att_pdf, att_png] }

/-- A blob store that returns distinct bytes for the two fixture paths. -/
def readGcs0 : Option Str → Option Str → Bytes :=
  fun _ p => if p == some ("p1".toList) then [1] else [2]

/-- A merge collaborator that concatenates its input buffers, so the
output reveals exactly which buffers were merged. -/
def concatMerge : List (Option Bytes) → Bytes :=
  fun l => (l.map (fun b => b.getD [])).flatten

/-- A renderer that always succeeds with a fixed body. -/
def renderOk : Str → Email → Except Str Str :=
  fun _ _ => Except.ok ("BODY".toList)

/-- A reply transport that always succeeds. -/
def transportOk : SentMessage → Except Str Unit :=
  fun _ => Except.ok ()

/-- A route entry used by witness configurations. -/
def entry0 : RouteEntry :=
  { recipient_email := "dest@x.com".toList,
    sender_account := "svc@x.com".toList,
    sender_account_secret := "sec".toList }

/-- A baseline configuration for witnesses; individual witnesses
override the flags they exercise. -/
def cfg0 : EWSConfig :=
  { email_account := "acc@x.com".toList, password := "pw".toList,
    mail_from := "acc@x.com".toList,
    mail_to_mapping := [("acct1".toList, entry0)],
    hardcoded_recipients := true, needs_pdfs := false, pdf_only := false,
    merge_pdfs := false, send_replies := false,
    reply_to_email := "reply@x.com".toList,
    ignore_reply_subjects := [], ignore_reply_senders := [] }

/-! ### Helper lemmas -/

/-- The count returned by `_load_attachments` is the number of PDFs in
the original attachment list, whatever the flags do to the list. -/
theorem load_attachments_snd (r : Option Str → Option Str → Bytes)
    (m : List (Option Bytes) → Bytes) (email : Email) (cfg : EWSConfig) :
    (load_attachments r m email cfg).2 =
      (email.attachments.filter isPdfMime).length := rfl

/-- The loader `_load_attachments` only mutates the attachment list: sender,
recipient, subject and body go through unchanged. -/
theorem load_preserves_meta (r : Option Str → Option Str → Bytes)
    (m : List (Option Bytes) → Bytes) (email : Email) (cfg : EWSConfig) :
    (load_attachments r m email cfg).1.sender = email.sender ∧
    (load_attachments r m email cfg).1.recipient = email.recipient ∧
    (load_attachments r m email cfg).1.subject = email.subject ∧
    (load_attachments r m email cfg).1.body = email.body :=
  ⟨rfl, rfl, rfl, rfl⟩

/-- Recipient resolution reads only the routing key, so it is the same
before and after attachment loading. -/
theorem resolve_after_load (r : Option Str → Option Str → Bytes)
    (m : List (Option Bytes) → Bytes) (email : Email) (cfg : EWSConfig) :
    resolve_recipient cfg (load_attachments r m email cfg).1 =
      resolve_recipient cfg email := rfl

/-- Downloading preserves each attachment's mimetype. -/
theorem downloadAll_mem (r : Option Str → Option Str → Bytes)
    (l : List Attachment) (a : Attachment) (ha : a ∈ downloadAll r l) :
    ∃ b ∈ l, a.mimetype = b.mimetype := by
  unfold downloadAll at ha
  rw [List.mem_map] at ha
  obtain ⟨b, hb, rfl⟩ := ha
  exact ⟨b, hb, rfl⟩

/-- Every attachment present after `_merge_pdfs` is either the synthetic
`application/pdf` one or a non-PDF member of the pre-merge list. -/
theorem merge_pdfs_mem (m : List (Option Bytes) → Bytes)
    (l : List Attachment) (nm : Str) (a : Attachment)
    (ha : a ∈ merge_pdfs m l nm) :
    a.mimetype = ("application/pdf".toList) ∨
      (a ∈ l ∧ isPdfMime a = false) := by
  unfold merge_pdfs at ha
  rcases List.mem_cons.mp ha with h | h
  · left; rw [h]
  · right
    refine ⟨List.mem_of_mem_filter h, ?_⟩
    have hh := List.of_mem_filter h
    simpa using hh

/-- Every attachment present after `_load_attachments` has either the
synthetic PDF mimetype or the mimetype of a member of the post-filter
input list. -/
theorem load_attachment_list_mem (r : Option Str → Option Str → Bytes)
    (m : List (Option Bytes) → Bytes) (cfg : EWSConfig)
    (l : List Attachment) (a : Attachment)
    (ha : a ∈ load_attachment_list r m cfg l) :
    a.mimetype = ("application/pdf".toList) ∨
      ∃ b ∈ (if cfg.pdf_only then l.filter isPdfMime else l),
        a.mimetype = b.mimetype := by
  unfold load_attachment_list at ha
  dsimp only at ha
  split at ha
  · next heq _ =>
      rcases merge_pdfs_mem _ _ _ _ ha with h | h
      · exact Or.inl h
      · exact Or.inr (downloadAll_mem r _ a (heq ▸ h.1))
  · exact Or.inr (downloadAll_mem r _ a ha)

/-- Evaluation of `process` when recipient resolution fails (mail.py lines 124-126):
return `false` with the already-loaded email and no transport traffic. -/
theorem process_resolve_none (r : Option Str → Option Str → Bytes)
    (m : List (Option Bytes) → Bytes) (rd : Str → Email → Except Str Str)
    (tr : SentMessage → Except Str Unit) (email : Email) (cfg : EWSConfig)
    (h : resolve_recipient cfg email = none) :
    process r m rd tr email cfg =
      { ok := false, email := (load_attachments r m email cfg).1,
        primary := none, reply_template := none, reply := Except.ok none,
        reply_calls := [] } := by
  unfold process
  rw [resolve_after_load r m email cfg, h]

/-- Evaluation of `process` when recipient resolution succeeds. -/
theorem process_resolve_some (r : Option Str → Option Str → Bytes)
    (m : List (Option Bytes) → Bytes) (rd : Str → Email → Except Str Str)
    (tr : SentMessage → Except Str Unit) (email : Email) (cfg : EWSConfig)
    (addr : Str) (h : resolve_recipient cfg email = some addr) :
    process r m rd tr email cfg =
      { ok := true
        email := (load_attachments r m email cfg).1
        primary := primary_send cfg (load_attachments r m email cfg).1 addr
          (load_attachments r m email cfg).2
        reply_template := if cfg.send_replies then
            some (reply_template_for (load_attachments r m email cfg).2)
          else none
        reply := (reply_run rd tr cfg (load_attachments r m email cfg).1
          (load_attachments r m email cfg).2).1
        reply_calls := (reply_run rd tr cfg (load_attachments r m email cfg).1
          (load_attachments r m email cfg).2).2 } := by
  unfold process
  rw [resolve_after_load r m email cfg, h]

/-- Any message produced by the primary-send decision goes to the
resolved address. -/
theorem primary_send_recipients (cfg : EWSConfig) (email1 : Email)
    (addr : Str) (n : Nat) (msg : SentMessage)
    (h : msg ∈ primary_send cfg email1 addr n) :
    msg.recipients = [addr] := by
  unfold primary_send at h
  split at h
  · split at h
    · simp only [Option.mem_def, Option.some.injEq] at h
      subst h; rfl
    · simp at h
  · simp only [Option.mem_def, Option.some.injEq] at h
    subst h; rfl

/-- When rendering succeeds and no suppression gate fires, the reply
step builds exactly the message the spec describes. -/
theorem build_reply_send (rd : Str → Email → Except Str Str)
    (cfg : EWSConfig) (email : Email) (tmpl body : Str)
    (hrd : rd tmpl email = Except.ok body)
    (hg1 : pyLower email.sender ≠ pyLower email.recipient)
    (hg2 : cfg.ignore_reply_senders.contains (pyLower email.sender) = false)
    (hg3 : ∀ x ∈ cfg.ignore_reply_subjects, pyStartsWith email.subject x = false) :
    build_reply rd cfg email tmpl = Except.ok (ReplyDecision.send
      { subject := ("Re: ".toList ++ email.subject).take 255
        body := body
        recipients := [email.sender]
        attachments := []
        reply_to := [cfg.reply_to_email]
        via_reply_account := true }) := by
  unfold build_reply
  rw [hrd]
  have h1 : (pyLower email.sender == pyLower email.recipient) = false :=
    beq_eq_false_iff_ne.mpr hg1
  have h3 : cfg.ignore_reply_subjects.filter
      (fun x => pyStartsWith email.subject x) = [] :=
    List.filter_eq_nil_iff.mpr (by intro x hx; rw [hg3 x hx]; simp)
  rw [h1, hg2, h3]
  simp

/-- When the reply step builds a message, exactly that message is handed
to the reply transport (whether or not the transport then fails). -/
theorem reply_step_calls_of_send (rd : Str → Email → Except Str Str)
    (tr : SentMessage → Except Str Unit) (cfg : EWSConfig) (email : Email)
    (tmpl : Str) (msg : SentMessage)
    (h : build_reply rd cfg email tmpl = Except.ok (ReplyDecision.send msg)) :
    (reply_step rd tr cfg email tmpl).2 = [msg] := by
  unfold reply_step
  rw [h]
  dsimp only
  cases tr msg <;> rfl

/-- If the self-reply gate matches, the reply step hands nothing to the
transport, whatever the renderer does. -/
theorem reply_step_self_suppressed (rd : Str → Email → Except Str Str)
    (tr : SentMessage → Except Str Unit) (cfg : EWSConfig) (email : Email)
    (tmpl : Str) (h : pyLower email.sender = pyLower email.recipient) :
    (reply_step rd tr cfg email tmpl).2 = [] := by
  unfold reply_step build_reply
  cases hr : rd tmpl email with
  | error e => rfl
  | ok body =>
    have h1 : (pyLower email.sender == pyLower email.recipient) = true :=
      beq_iff_eq.mpr h
    rw [h1]
    rfl

/-! ### Claims -/

/-- C3: for every email and every config, the attachment-loading step
returns a count equal to the number of attachments in the original
(pre-filter) list whose mimetype ends in `"pdf"`, for all values of the
`pdfOnly` and `mergePdfs` flags. -/
theorem C3_pdf_count_prefilter (readGcs : Option Str → Option Str → Bytes)
    (mergeFn : List (Option Bytes) → Bytes) (email : Email) (cfg : EWSConfig) :
    (load_attachments readGcs mergeFn email cfg).2 =
      (email.attachments.filter isPdfMime).length := rfl

/-- C5: the reply classification is a pure three-way function of the PDF
count: 0 selects the error template, 1 the success template, and every
count greater than 1 the warning template. -/
theorem C5_reply_classification :
    reply_template_for 0 = "templates/error.html".toList ∧
    reply_template_for 1 = "templates/success.html".toList ∧
    ∀ n : Nat, 1 < n → reply_template_for n = "templates/warning.html".toList := by
  refine ⟨rfl, rfl, ?_⟩
  intro n hn
  obtain ⟨k, rfl⟩ : ∃ k, n = k + 2 := ⟨n - 2, by omega⟩
  rfl

/-- Witness for C5 at the counts 2 and 5 named by the spec. -/
theorem C5_reply_classification_witness :
    (1 < 2 ∧ reply_template_for 2 = "templates/warning.html".toList) ∧
    (1 < 5 ∧ reply_template_for 5 = "templates/warning.html".toList) :=
  ⟨⟨by decide, C5_reply_classification.2.2 2 (by decide)⟩,
   ⟨by decide, C5_reply_classification.2.2 5 (by decide)⟩⟩

/-- Config exercising the merge step without the PDF-only filter. -/
def cfgC1 : EWSConfig :=
  { cfg0 with merge_pdfs := true }

/-- C1 (refuted — code bug): with `mergePdfs` on and `pdfOnly` off, the
merge step feeds the content of every remaining attachment to the
PDF-merging collaborator — here the PNG bytes `[2]` as well as the PDF
bytes `[1]` — so the synthetic attachment's content `[1, 2]` is the
merge of all contents, not of the PDF contents alone, whose merge would
be `concatMerge [some [1]] = [1]`.  The removal, prepend and ordering
parts of the claim are visible in the resulting list. -/
theorem C1_merge_consumes_non_pdfs :
    ((load_attachments readGcs0 concatMerge email0 cfgC1).1.attachments.map
        (fun a => a.content)) = [some [1, 2], some [2]] ∧
    ((load_attachments readGcs0 concatMerge email0 cfgC1).1.attachments.map
        (fun a => a.mimetype)) =
      ["application/pdf".toList, "image/png".toList] ∧
    isPdfMime att_png = false ∧
    concatMerge [some [1]] = [1] ∧
    some ((1 : Nat) :: [2]) ≠ some [1] := by decide

/-- C8: with `pdfOnly` set and a non-empty original list, every
attachment present after loading has a PDF mimetype. -/
theorem C8_pdf_only_all_pdf (readGcs : Option Str → Option Str → Bytes)
    (mergeFn : List (Option Bytes) → Bytes) (email : Email) (cfg : EWSConfig)
    (hne : email.attachments ≠ []) (hp : cfg.pdf_only = true) :
    ∀ a ∈ (load_attachments readGcs mergeFn email cfg).1.attachments,
      isPdfMime a = true := by
  intro a ha
  have ha' : a ∈ load_attachment_list readGcs mergeFn cfg email.attachments := ha
  have hm := load_attachment_list_mem readGcs mergeFn cfg email.attachments a ha'
  rw [hp] at hm
  simp only [if_true] at hm
  rcases hm with h | ⟨b, hb, hab⟩
  · unfold isPdfMime pyEndsWith
    rw [h]
    decide
  · have hb2 : isPdfMime b = true := List.of_mem_filter hb
    unfold isPdfMime at hb2 ⊢
    rw [hab]
    exact hb2

/-- Witness for C8: a concrete mixed attachment list with the PDF-only
flag set. -/
theorem C8_pdf_only_all_pdf_witness :
    email0.attachments ≠ [] ∧
    (EWSConfig.pdf_only { cfg0 with pdf_only := true }) = true ∧
    ∀ a ∈ (load_attachments readGcs0 concatMerge email0
        { cfg0 with pdf_only := true }).1.attachments, isPdfMime a = true :=
  ⟨by decide, rfl,
   C8_pdf_only_all_pdf readGcs0 concatMerge email0 _ (by decide) rfl⟩

/-- Config with no routing entries at all (no per-key, no STANDARD). -/
def cfgNoRoute : EWSConfig :=
  { cfg0 with mail_to_mapping := [] }

/-- Config with replies enabled. -/
def cfgReply : EWSConfig :=
  { cfg0 with send_replies := true }

/-- Config requiring PDFs for the primary send. -/
def cfgNeeds : EWSConfig :=
  { cfg0 with needs_pdfs := true }

/-- A renderer that always fails. -/
def renderFail : Str → Email → Except Str Str :=
  fun _ _ => Except.error ("boom".toList)

/-- An email whose sender and recipient coincide up to case. -/
def emailSelf : Email :=
  { email0 with sender := "Acct1".toList, recipient := "acct1".toList }

/-- C2: per-key entries route the primary message to the entry's
`recipient_email`; with only a `STANDARD` entry the raw routing key is
the destination; with neither, `process` returns `false` and no message
reaches any mail transport. -/
theorem C2_recipient_routing (r : Option Str → Option Str → Bytes)
    (m : List (Option Bytes) → Bytes) (rd : Str → Email → Except Str Str)
    (tr : SentMessage → Except Str Unit) (email : Email) (cfg : EWSConfig) :
    (∀ entry, mappingGet cfg.mail_to_mapping email.recipient = some entry →
      resolve_recipient cfg email = some entry.recipient_email ∧
      (∀ msg ∈ (process r m rd tr email cfg).primary,
        msg.recipients = [entry.recipient_email]) ∧
      (cfg.needs_pdfs = false →
        (process r m rd tr email cfg).primary.isSome = true)) ∧
    (mappingGet cfg.mail_to_mapping email.recipient = none →
      (∀ entry, mappingGet cfg.mail_to_mapping ("STANDARD".toList) = some entry →
        resolve_recipient cfg email = some email.recipient ∧
        (∀ msg ∈ (process r m rd tr email cfg).primary,
          msg.recipients = [email.recipient]) ∧
        (cfg.needs_pdfs = false →
          (process r m rd tr email cfg).primary.isSome = true)) ∧
      (mappingGet cfg.mail_to_mapping ("STANDARD".toList) = none →
        (process r m rd tr email cfg).ok = false ∧
        (process r m rd tr email cfg).transport_calls = [])) := by
  constructor
  · intro entry h1
    have hres : resolve_recipient cfg email = some entry.recipient_email := by
      unfold resolve_recipient
      rw [h1]
    rw [process_resolve_some r m rd tr email cfg _ hres]
    refine ⟨hres, ?_, ?_⟩
    · intro msg hm
      exact primary_send_recipients _ _ _ _ _ hm
    · intro hn
      unfold primary_send
      rw [hn]
      rfl
  · intro h1
    constructor
    · intro entry h2
      have hres : resolve_recipient cfg email = some email.recipient := by
        unfold resolve_recipient
        rw [h1, h2]
      rw [process_resolve_some r m rd tr email cfg _ hres]
      refine ⟨hres, ?_, ?_⟩
      · intro msg hm
        exact primary_send_recipients _ _ _ _ _ hm
      · intro hn
        unfold primary_send
        rw [hn]
        rfl
    · intro h2
      have hres : resolve_recipient cfg email = none := by
        unfold resolve_recipient
        rw [h1, h2]
      rw [process_resolve_none r m rd tr email cfg hres]
      exact ⟨rfl, rfl⟩

/-- Witness for C2: with an empty routing table, `process` fails and no
transport call is made. -/
theorem C2_recipient_routing_witness :
    mappingGet cfgNoRoute.mail_to_mapping email0.recipient = none ∧
    mappingGet cfgNoRoute.mail_to_mapping ("STANDARD".toList) = none ∧
    (process readGcs0 concatMerge renderOk transportOk email0 cfgNoRoute).ok
      = false ∧
    (process readGcs0 concatMerge renderOk transportOk email0
        cfgNoRoute).transport_calls = [] := by
  have h := ((C2_recipient_routing readGcs0 concatMerge renderOk transportOk
    email0 cfgNoRoute).2 rfl).2 rfl
  exact ⟨rfl, rfl, h.1, h.2⟩

/-- C4: once resolution succeeded, `needsPdfs` gates the primary send on
a positive PDF count (with the reply policy still selecting a template
when replies are on), and without `needsPdfs` the primary message always
goes out. -/
theorem C4_send_decision (r : Option Str → Option Str → Bytes)
    (m : List (Option Bytes) → Bytes) (rd : Str → Email → Except Str Str)
    (tr : SentMessage → Except Str Unit) (email : Email) (cfg : EWSConfig)
    (addr : Str) (hres : resolve_recipient cfg email = some addr) :
    (cfg.needs_pdfs = true →
      ((process r m rd tr email cfg).primary.isSome = true ↔
        0 < (email.attachments.filter isPdfMime).length)) ∧
    (cfg.needs_pdfs = true → (email.attachments.filter isPdfMime).length = 0 →
      (process r m rd tr email cfg).primary = none ∧
      (cfg.send_replies = true →
        (process r m rd tr email cfg).reply_template =
          some (reply_template_for 0))) ∧
    (cfg.needs_pdfs = false →
      (process r m rd tr email cfg).primary =
        some (primary_message (load_attachments r m email cfg).1 addr)) := by
  rw [process_resolve_some r m rd tr email cfg addr hres]
  refine ⟨?_, ?_, ?_⟩
  · intro hn
    unfold primary_send
    rw [hn, load_attachments_snd]
    by_cases hp : 0 < (email.attachments.filter isPdfMime).length
    · simp [hp]
    · simp [hp]
  · intro hn h0
    unfold primary_send
    rw [hn, load_attachments_snd, h0]
    refine ⟨by simp, ?_⟩
    intro hsr
    rw [hsr]
    simp
  · intro hn
    unfold primary_send
    rw [hn]
    rfl

/-- Witness for C4: one PDF present and `needsPdfs` on, so the primary
message is sent. -/
theorem C4_send_decision_witness :
    resolve_recipient cfgNeeds email0 = some ("dest@x.com".toList) ∧
    cfgNeeds.needs_pdfs = true ∧
    0 < (email0.attachments.filter isPdfMime).length ∧
    (process readGcs0 concatMerge renderOk transportOk email0
      cfgNeeds).primary.isSome = true := by
  refine ⟨by decide, rfl, by decide, ?_⟩
  exact ((C4_send_decision readGcs0 concatMerge renderOk transportOk email0
    cfgNeeds ("dest@x.com".toList) (by decide)).1 rfl).mpr (by decide)

/-- C6: when sender and recipient coincide case-insensitively, no reply
is ever handed to the reply transport, whatever the configuration, and
the self-reply gate is the first suppression gate to fire. -/
theorem C6_self_reply_suppressed (r : Option Str → Option Str → Bytes)
    (m : List (Option Bytes) → Bytes) (rd : Str → Email → Except Str Str)
    (tr : SentMessage → Except Str Unit) (email : Email) (cfg : EWSConfig)
    (h : pyLower email.sender = pyLower email.recipient) :
    (process r m rd tr email cfg).reply_calls = [] ∧
    (∀ template body, rd template email = Except.ok body →
      build_reply rd cfg email template =
        Except.ok (ReplyDecision.suppressed 1)) := by
  constructor
  · cases hres : resolve_recipient cfg email with
    | none => rw [process_resolve_none r m rd tr email cfg hres]
    | some addr =>
      rw [process_resolve_some r m rd tr email cfg addr hres]
      unfold reply_run
      cases hsr : cfg.send_replies with
      | false => rfl
      | true => exact reply_step_self_suppressed rd tr cfg _ _ h
  · intro template body hrd
    unfold build_reply
    rw [hrd]
    have h1 : (pyLower email.sender == pyLower email.recipient) = true :=
      beq_iff_eq.mpr h
    rw [h1]
    rfl

/-- Witness for C6: sender `"Acct1"`, recipient `"acct1"`, replies on,
route resolvable — still no reply transport call. -/
theorem C6_self_reply_suppressed_witness :
    pyLower emailSelf.sender = pyLower emailSelf.recipient ∧
    cfgReply.send_replies = true ∧
    resolve_recipient cfgReply emailSelf = some ("dest@x.com".toList) ∧
    (process readGcs0 concatMerge renderOk transportOk emailSelf
      cfgReply).reply_calls = [] :=
  ⟨by decide, rfl, by decide,
   (C6_self_reply_suppressed readGcs0 concatMerge renderOk transportOk
     emailSelf cfgReply (by decide)).1⟩

/-- C7: the boolean outcome of `process` never depends on the renderer
or the reply transport, and once resolution succeeded it is `true` even
when the reply step failed. -/
theorem C7_reply_failure_swallowed (r : Option Str → Option Str → Bytes)
    (m : List (Option Bytes) → Bytes) (rd rd' : Str → Email → Except Str Str)
    (tr tr' : SentMessage → Except Str Unit) (email : Email) (cfg : EWSConfig) :
    ((process r m rd tr email cfg).ok = (process r m rd' tr' email cfg).ok) ∧
    ((resolve_recipient cfg email).isSome = true →
      (process r m rd tr email cfg).ok = true) := by
  cases hres : resolve_recipient cfg email with
  | none =>
    rw [process_resolve_none r m rd tr email cfg hres,
        process_resolve_none r m rd' tr' email cfg hres]
    refine ⟨rfl, ?_⟩
    intro hcontra
    simp at hcontra
  | some addr =>
    rw [process_resolve_some r m rd tr email cfg addr hres,
        process_resolve_some r m rd' tr' email cfg addr hres]
    exact ⟨rfl, fun _ => rfl⟩

/-- Witness for C7: the renderer throws, the reply outcome records the
error, yet `process` returns `true`. -/
theorem C7_reply_failure_swallowed_witness :
    (resolve_recipient cfgReply email0).isSome = true ∧
    (process readGcs0 concatMerge renderFail transportOk email0 cfgReply).reply
      = Except.error ("boom".toList) ∧
    (process readGcs0 concatMerge renderFail transportOk email0 cfgReply).ok
      = true := by
  refine ⟨by decide, rfl, ?_⟩
  exact (C7_reply_failure_swallowed readGcs0 concatMerge renderFail renderOk
    transportOk transportOk email0 cfgReply).2 (by decide)

/-- C9: past all suppression gates with replies on, the reply handed to
the transport has the truncated `"Re: "` subject, the sender as sole
recipient, the configured reply-to, and goes via the reply account. -/
theorem C9_reply_contents (r : Option Str → Option Str → Bytes)
    (m : List (Option Bytes) → Bytes) (rd : Str → Email → Except Str Str)
    (tr : SentMessage → Except Str Unit) (email : Email) (cfg : EWSConfig)
    (addr body : Str)
    (hres : resolve_recipient cfg email = some addr)
    (hsr : cfg.send_replies = true)
    (hg1 : pyLower email.sender ≠ pyLower email.recipient)
    (hg2 : cfg.ignore_reply_senders.contains (pyLower email.sender) = false)
    (hg3 : ∀ x ∈ cfg.ignore_reply_subjects, pyStartsWith email.subject x = false)
    (hrd : rd (reply_template_for (load_attachments r m email cfg).2)
      (load_attachments r m email cfg).1 = Except.ok body) :
    (process r m rd tr email cfg).reply_calls =
      [{ subject := ("Re: ".toList ++ email.subject).take 255
         body := body
         recipients := [email.sender]
         attachments := []
         reply_to := [cfg.reply_to_email]
         via_reply_account := true }] := by
  rw [process_resolve_some r m rd tr email cfg addr hres]
  unfold reply_run
  rw [hsr]
  have hb := build_reply_send rd cfg (load_attachments r m email cfg).1
    (reply_template_for (load_attachments r m email cfg).2) body hrd hg1 hg2 hg3
  show (reply_step rd tr cfg (load_attachments r m email cfg).1
    (reply_template_for (load_attachments r m email cfg).2)).2 = _
  exact reply_step_calls_of_send rd tr cfg (load_attachments r m email cfg).1
    (reply_template_for (load_attachments r m email cfg).2) _ hb

/-- Witness for C9: the fixture email passes every gate; the reply call
list is exactly the described message. -/
theorem C9_reply_contents_witness :
    resolve_recipient cfgReply email0 = some ("dest@x.com".toList) ∧
    cfgReply.send_replies = true ∧
    pyLower email0.sender ≠ pyLower email0.recipient ∧
    cfgReply.ignore_reply_senders.contains (pyLower email0.sender) = false ∧
    (∀ x ∈ cfgReply.ignore_reply_subjects,
      pyStartsWith email0.subject x = false) ∧
    (process readGcs0 concatMerge renderOk transportOk email0
        cfgReply).reply_calls =
      [{ subject := ("Re: ".toList ++ email0.subject).take 255
         body := "BODY".toList
         recipients := [email0.sender]
         attachments := []
         reply_to := [cfgReply.reply_to_email]
         via_reply_account := true }] := by
  refine ⟨by decide, rfl, by decide, by decide, by decide, ?_⟩
  exact C9_reply_contents readGcs0 concatMerge renderOk transportOk email0
    cfgReply ("dest@x.com".toList) ("BODY".toList) (by decide) rfl (by decide)
    (by decide) (by decide) rfl

/-- C10: attachment loading precedes recipient resolution, so a routing
failure still returns the mutated email: its attachment list is the
loader's output (filtered, downloaded, possibly merged), not the
original one. -/
theorem C10_load_before_resolution (r : Option Str → Option Str → Bytes)
    (m : List (Option Bytes) → Bytes) (rd : Str → Email → Except Str Str)
    (tr : SentMessage → Except Str Unit) (email : Email) (cfg : EWSConfig)
    (h : resolve_recipient cfg email = none) :
    (process r m rd tr email cfg).ok = false ∧
    (process r m rd tr email cfg).email = (load_attachments r m email cfg).1 ∧
    (process r m rd tr email cfg).email.attachments =
      load_attachment_list r m cfg email.attachments := by
  rw [process_resolve_none r m rd tr email cfg h]
  exact ⟨rfl, rfl, rfl⟩

/-- Witness for C10: with no route, `process` fails but the returned
email already differs from the input (contents downloaded). -/
theorem C10_load_before_resolution_witness :
    resolve_recipient cfgNoRoute email0 = none ∧
    (process readGcs0 concatMerge renderOk transportOk email0 cfgNoRoute).ok
      = false ∧
    (process readGcs0 concatMerge renderOk transportOk email0 cfgNoRoute).email
      = (load_attachments readGcs0 concatMerge email0 cfgNoRoute).1 ∧
    (process readGcs0 concatMerge renderOk transportOk email0 cfgNoRoute).email
      ≠ email0 := by
  have h := C10_load_before_resolution readGcs0 concatMerge renderOk
    transportOk email0 cfgNoRoute (by decide)
  exact ⟨by decide, h.1, h.2.1, by decide⟩

/-!
### Superseded variant: the cloud_function PDF-only filter

The spec's design notes treat the later, complete pipeline above as
canonical and the earlier `src/cloud_function/mail.py` variant as
superseded.  Its `_get_attachments` filter (lines 107-110) removes
non-PDF attachments by calling `pop(idx)` while iterating with
`enumerate`: after a removal the iterator still advances, so the element
that slid into the popped index is never examined.  The definition and
theorem below record that this superseded filter does not establish the
PDF-only property.
-/

/-- The `enumerate`/`pop(idx)` loop of the superseded cloud_function
`_get_attachments`: fetch the element at the iterator index; a PDF is
kept and the index advances; a non-PDF is removed and the index still
advances, skipping the element that moved into its place. -/
def cf_pdf_only_filter : List Attachment → List Attachment
  | [] => []
  | a :: rest =>
    if isPdfMime a then a :: cf_pdf_only_filter rest
    else
      match rest with
      | [] => []
      | b :: rest2 => b :: cf_pdf_only_filter rest2

/-- Two consecutive non-PDF attachments defeat the superseded filter:
the second one survives.  (The canonical loader proved in the C8 theorem
does not have this defect.) -/
theorem cf_pdf_only_filter_keeps_non_pdf :
    cf_pdf_only_filter [att_png, att_png] = [att_png] ∧
    isPdfMime att_png = false := by decide

end FinBasware
